import Mathlib

/-!
Shallow embedding of the commit-message generation pipelines of the
MAS-Git-Commit-Message-Generator repository.

The repository contains several near-duplicate pipelines; the claims cite
four of them, all embedded here:
  * src/simple_commit_generator.py  — SimpleDiffAnalyzer / SimpleSummaryAgent /
    SimpleCommitFormatter / SimpleCommitMessageGenerator (fully deterministic);
  * src/commit_generator.py — DiffAnalysisAgent / SummaryAgent /
    CommitFormatterAgent / CommitMessageGenerator (CrewAI-backed; each LLM
    call is modelled by an Option parameter: none models the exception path
    of the corresponding try/except, some r models a successful kickoff
    returning string or parsed JSON r);
  * src/demo_commit_generator.py — Mock agents (deterministic);
  * src/fast_commit_generator.py — FastCommitFormatter (its output never uses
    the LLM: the code comment says "Always use fallback for consistency").

Python string primitives (strip, lower, substring membership, split) are
embedded as executable functions on character lists.  Case mapping is the
ASCII mapping, which agrees with Python str.lower on every keyword and
input the rules inspect.
-/

set_option maxRecDepth 8192

/-- Whitespace characters recognised by Python str.strip / str.split(). -/
def isPyWs (c : Char) : Bool :=
  c = ' ' || c = '\t' || c = '\n' || c = '\r' || c = '\x0b' || c = '\x0c'

/-- Python str.strip(): remove leading and trailing whitespace. -/
def pyStrip (s : String) : String :=
  String.mk (((s.toList.dropWhile isPyWs).reverse.dropWhile isPyWs).reverse)

/-- Python str.lower() (ASCII case mapping). -/
def pyLower (s : String) : String :=
  String.mk (s.toList.map Char.toLower)

/-- Does the pattern occur as a leading segment of the list? -/
def leadMatch : List Char → List Char → Bool
  | [], _ => true
  | _ :: _, [] => false
  | a :: as, b :: bs => if a = b then leadMatch as bs else false

/-- Does the pattern occur as a contiguous segment anywhere in the list? -/
def occursIn (pat : List Char) : List Char → Bool
  | [] => leadMatch pat []
  | c :: cs => leadMatch pat (c :: cs) || occursIn pat cs

/-- Python substring membership: pat in s. -/
def strContains (s pat : String) : Bool :=
  occursIn pat.toList s.toList

/-- Python single-character membership: c in s. -/
def strContainsChar (s : String) (c : Char) : Bool :=
  s.toList.contains c

/-- Split a character list at newline characters (Python str.split with an
explicit separator: n separators yield n+1 pieces, empty pieces kept). -/
def splitOnNl : List Char → List (List Char)
  | [] => [[]]
  | c :: cs =>
    if c = '\n' then [] :: splitOnNl cs
    else
      match splitOnNl cs with
      | [] => [[c]]
      | l :: ls => (c :: l) :: ls

/-- Python git_diff.split of the diff text into lines. -/
def pySplitLines (s : String) : List String :=
  (splitOnNl s.toList).map String.mk

/-- Worker for whitespace splitting; acc holds the current word reversed. -/
def pyWordsAux : List Char → List Char → List String
  | [], acc => if acc.isEmpty then [] else [String.mk acc.reverse]
  | c :: cs, acc =>
    if isPyWs c then
      if acc.isEmpty then pyWordsAux cs []
      else String.mk acc.reverse :: pyWordsAux cs []
    else pyWordsAux cs (c :: acc)

/-- Python line.split() with no argument: split on whitespace runs,
discarding empty pieces. -/
def pySplitWhitespace (s : String) : List String :=
  pyWordsAux s.toList []

/-- Python part.split of a path on the slash character, keeping the last
piece (part.split with separator slash, indexed [-1]). -/
def lastPathComponent (s : String) : String :=
  String.mk ((s.toList.reverse.takeWhile (fun c => c ≠ '/')).reverse)

/-- Concatenation of the lists produced for each element (the repeated
files.append calls of the Python line loops). -/
def catMap (f : α → List β) : List α → List β
  | [] => []
  | a :: as => f a ++ catMap f as

/-- Result record of the rule-based analyzers (the Python dict with keys
change_type, scope, confidence, reasoning, files). -/
structure Analysis where
  change_type : String
  scope : String
  confidence : String
  reasoning : String
  files : List String
  deriving DecidableEq

/-- Per-line contribution of SimpleDiffAnalyzer._extract_file_names
(src/simple_commit_generator.py lines 18-28): on a diff --git header with
at least four whitespace-separated parts, take the last path component of
parts[2] and parts[3]; append the first unless it equals the literal
/dev/null, and the second unless it equals /dev/null or the first. -/
def simpleLineFiles (line : String) : List String :=
  if leadMatch ("diff --git".toList) line.toList then
    if (pySplitWhitespace line).length ≥ 4 then
      (if lastPathComponent ((pySplitWhitespace line).getD 2 "") ≠ "/dev/null" then
        [lastPathComponent ((pySplitWhitespace line).getD 2 "")] else [])
      ++
      (if lastPathComponent ((pySplitWhitespace line).getD 3 "") ≠ "/dev/null" ∧
          lastPathComponent ((pySplitWhitespace line).getD 3 "") ≠
            lastPathComponent ((pySplitWhitespace line).getD 2 "") then
        [lastPathComponent ((pySplitWhitespace line).getD 3 "")] else [])
    else []
  else []

/-- SimpleDiffAnalyzer._extract_file_names (src/simple_commit_generator.py
lines 15-29). -/
def SimpleDiffAnalyzer_extract_file_names (git_diff : String) : List String :=
  catMap simpleLineFiles (pySplitLines git_diff)

/-- Rule 1 condition of SimpleDiffAnalyzer.analyze_diff (lines 37-43):
documentation signal, suppressed when a Python file with code keywords is
present. -/
def condDocs (d : String) : Bool :=
  (((SimpleDiffAnalyzer_extract_file_names d).any fun f => strContains f ".md")
    || strContains (pyLower d) "<!--"
    || strContains (pyLower d) "-->"
    || strContains (pyLower d) "readme")
  && !(((SimpleDiffAnalyzer_extract_file_names d).any fun f => strContains f ".py")
    && (strContains (pyLower d) "def "
      || strContains (pyLower d) "class "
      || strContains (pyLower d) "import "
      || strContains (pyLower d) "return "))

/-- Rule 2 condition (line 52): code-structure keywords. -/
def condCode (d : String) : Bool :=
  strContains (pyLower d) "def "
    || strContains (pyLower d) "class "
    || strContains (pyLower d) "import "
    || strContains (pyLower d) "return "
    || strContains (pyLower d) "if "
    || strContains (pyLower d) "for "
    || strContains (pyLower d) "while "

/-- Rule 3 condition (line 61): authentication keywords. -/
def condAuth (d : String) : Bool :=
  strContains (pyLower d) "log"
    || strContains (pyLower d) "auth"
    || strContains (pyLower d) "login"
    || strContains (pyLower d) "session"
    || strContains (pyLower d) "token"
    || strContains (pyLower d) "jwt"

/-- Rule 4 condition (line 69): validation and bug-fix keywords. -/
def condFix (d : String) : Bool :=
  strContains (pyLower d) "pattern"
    || strContains (pyLower d) "regex"
    || strContains (pyLower d) "validation"
    || strContains (pyLower d) "fix"
    || strContains (pyLower d) "bug"
    || strContains (pyLower d) "error"

/-- Rule 5 condition (line 77): encapsulation and refactor keywords, the
first of which is the bare underscore. -/
def condRefactor (d : String) : Bool :=
  strContains (pyLower d) "_"
    || strContains (pyLower d) "private"
    || strContains (pyLower d) "encapsulation"
    || strContains (pyLower d) "refactor"
    || strContains (pyLower d) "cleanup"

/-- Rule 6 condition (line 85): test keywords. -/
def condTest (d : String) : Bool :=
  strContains (pyLower d) "test"
    || strContains (pyLower d) "spec"
    || strContains (pyLower d) "mock"
    || strContains (pyLower d) "stub"

/-- Rule 7 condition (line 93): style keywords. -/
def condStyle (d : String) : Bool :=
  strContains (pyLower d) "style"
    || strContains (pyLower d) "format"
    || strContains (pyLower d) "lint"
    || strContains (pyLower d) "prettier"

/-- Rule 8 condition (line 101): build keywords. -/
def condBuild (d : String) : Bool :=
  strContains (pyLower d) "build"
    || strContains (pyLower d) "compile"
    || strContains (pyLower d) "package"
    || strContains (pyLower d) "dependencies"

/-- Rule 9 condition (line 109): CI keywords. -/
def condCI (d : String) : Bool :=
  strContains (pyLower d) "ci"
    || strContains (pyLower d) "pipeline"
    || strContains (pyLower d) "workflow"
    || strContains (pyLower d) "github"
    || strContains (pyLower d) "actions"

/-- SimpleDiffAnalyzer.analyze_diff (src/simple_commit_generator.py lines
31-124): ordered first-match rule chain. -/
def SimpleDiffAnalyzer_analyze_diff (d : String) : Analysis :=
  if condDocs d then
    ⟨"docs", "documentation", "high", "Documentation changes detected",
      SimpleDiffAnalyzer_extract_file_names d⟩
  else if condCode d then
    ⟨"feat", "code", "high", "Code enhancements and new functionality detected",
      SimpleDiffAnalyzer_extract_file_names d⟩
  else if condAuth d then
    ⟨"feat", "auth", "high", "Authentication and security features detected",
      SimpleDiffAnalyzer_extract_file_names d⟩
  else if condFix d then
    ⟨"fix", "validation", "high", "Bug fixes and validation improvements detected",
      SimpleDiffAnalyzer_extract_file_names d⟩
  else if condRefactor d then
    ⟨"refactor", "code", "medium", "Code structure and encapsulation improvements detected",
      SimpleDiffAnalyzer_extract_file_names d⟩
  else if condTest d then
    ⟨"test", "testing", "high", "Test code additions or modifications detected",
      SimpleDiffAnalyzer_extract_file_names d⟩
  else if condStyle d then
    ⟨"style", "formatting", "medium", "Code formatting and style changes detected",
      SimpleDiffAnalyzer_extract_file_names d⟩
  else if condBuild d then
    ⟨"build", "dependencies", "high", "Build system and dependency changes detected",
      SimpleDiffAnalyzer_extract_file_names d⟩
  else if condCI d then
    ⟨"ci", "pipeline", "high", "CI/CD pipeline changes detected",
      SimpleDiffAnalyzer_extract_file_names d⟩
  else
    ⟨"chore", "maintenance", "low", "General maintenance changes detected",
      SimpleDiffAnalyzer_extract_file_names d⟩

/-- File-context clause of SimpleSummaryAgent.create_summary (lines
132-140). -/
def simpleFileContext : List String → String
  | [] => ""
  | [f] => " in " ++ f
  | [f, g] => " in " ++ f ++ " and " ++ g
  | f :: _ :: rest => " in " ++ f ++ " and " ++ toString (rest.length + 1) ++ " other files"

/-- SimpleSummaryAgent.create_summary (src/simple_commit_generator.py lines
130-170). -/
def SimpleSummaryAgent_create_summary (_git_diff change_type scope : String)
    (files : List String) : String :=
  if change_type = "feat" then
    if scope = "auth" then "Add authentication and security features" ++ simpleFileContext files
    else "Add new functionality" ++ simpleFileContext files
  else if change_type = "fix" then
    if scope = "validation" then "Fix validation and input handling" ++ simpleFileContext files
    else "Fix bugs and resolve issues" ++ simpleFileContext files
  else if change_type = "refactor" then
    "Refactor code for better structure and maintainability" ++ simpleFileContext files
  else if change_type = "test" then
    "Add or update tests" ++ simpleFileContext files
  else if change_type = "docs" then
    if scope = "documentation" then "Update API documentation" ++ simpleFileContext files
    else if scope = "code" then "Comment out code sections" ++ simpleFileContext files
    else "Update documentation" ++ simpleFileContext files
  else if change_type = "style" then "Improve code formatting and style"
  else if change_type = "build" then "Update build configuration and dependencies"
  else if change_type = "ci" then "Update CI/CD pipeline configuration"
  else "Update codebase with maintenance improvements"

/-- The scope segment shared by SimpleCommitFormatter, FastCommitFormatter
and CommitFormatterAgent: parenthesised scope unless the scope is empty
(Python falsy None or empty string) or the maintenance sentinel. -/
def simpleScopePart (scope : String) : String :=
  if scope ≠ "" ∧ scope ≠ "maintenance" then "(" ++ scope ++ ")" else ""

/-- SimpleCommitFormatter.format_commit_message (src/simple_commit_generator.py
lines 176-217); the summary argument is never used. -/
def SimpleCommitFormatter_format_commit_message
    (change_type _summary : String) (scope : String) : String :=
  change_type ++ simpleScopePart scope ++ ": " ++
    (if change_type = "feat" then
      if scope = "auth" then "add authentication features"
      else if scope = "api" then "add new API endpoints"
      else if scope = "ui" then "add new user interface"
      else "add new functionality"
    else if change_type = "fix" then
      if scope = "validation" then "fix validation issues"
      else if scope = "bug" then "fix critical bugs"
      else "fix issues and bugs"
    else if change_type = "docs" then
      if scope = "api" then "update API documentation"
      else if scope = "readme" then "update README"
      else "update documentation"
    else if change_type = "refactor" then "refactor code structure"
    else if change_type = "test" then "add or update tests"
    else if change_type = "style" then "improve code formatting"
    else if change_type = "build" then "update build configuration"
    else if change_type = "ci" then "update CI/CD pipeline"
    else "maintain codebase")

/-- SimpleCommitMessageGenerator.generate_commit_message
(src/simple_commit_generator.py lines 259-287) on an explicitly supplied
diff string. -/
def SimpleCommitMessageGenerator_generate_commit_message (git_diff : String) : String :=
  if pyStrip git_diff = "" then "No changes detected or git diff is empty."
  else
    SimpleCommitFormatter_format_commit_message
      (SimpleDiffAnalyzer_analyze_diff git_diff).change_type
      (SimpleSummaryAgent_create_summary git_diff
        (SimpleDiffAnalyzer_analyze_diff git_diff).change_type
        (SimpleDiffAnalyzer_analyze_diff git_diff).scope
        (SimpleDiffAnalyzer_analyze_diff git_diff).files)
      (SimpleDiffAnalyzer_analyze_diff git_diff).scope

/-- Result record of the demo mock analyzer (no files key). -/
structure MockAnalysis where
  change_type : String
  scope : String
  confidence : String
  reasoning : String
  deriving DecidableEq

/-- MockDiffAnalyzerAgent.analyze_diff (src/demo_commit_generator.py lines
22-52). -/
def MockDiffAnalyzerAgent_analyze_diff (git_diff : String) : MockAnalysis :=
  if strContains git_diff "def " ∧ strContains git_diff "+" then
    if strContains (pyLower git_diff) "fix" || strContains (pyLower git_diff) "bug"
        || strContains (pyLower git_diff) "pattern" then
      ⟨"fix", "validation", "high",
        "Code changes include bug fix patterns and validation improvements"⟩
    else if strContains (pyLower git_diff) "log" || strContains (pyLower git_diff) "auth" then
      ⟨"feat", "auth", "high",
        "New authentication features and logging functionality added"⟩
    else
      ⟨"refactor", "database", "medium",
        "Code structure improvements and encapsulation changes"⟩
  else
    ⟨"chore", "none", "low", "General maintenance changes detected"⟩

/-- MockSummaryAgent.create_summary (src/demo_commit_generator.py lines
62-71); the diff and scope arguments are unused. -/
def MockSummaryAgent_create_summary (_git_diff change_type _scope : String) : String :=
  if change_type = "feat" then "Add authentication logging and session management features"
  else if change_type = "fix" then "Improve email validation regex pattern for better accuracy"
  else if change_type = "refactor" then "Refactor database connection handling with proper encapsulation"
  else "Update codebase with maintenance improvements"

/-- MockCommitFormatterAgent.format_commit_message (src/demo_commit_generator.py
lines 81-86): here the sentinel suppressing the parenthesis group is the
string none (or an empty scope). -/
def MockCommitFormatterAgent_format_commit_message
    (change_type summary scope : String) : String :=
  if scope ≠ "" ∧ scope ≠ "none" then
    change_type ++ "(" ++ scope ++ "): " ++ pyLower summary
  else
    change_type ++ ": " ++ pyLower summary

/-- DemoCommitMessageGenerator.generate_commit_message
(src/demo_commit_generator.py lines 97-131), print statements omitted. -/
def DemoCommitMessageGenerator_generate_commit_message (git_diff : String) : String :=
  MockCommitFormatterAgent_format_commit_message
    (MockDiffAnalyzerAgent_analyze_diff git_diff).change_type
    (MockSummaryAgent_create_summary git_diff
      (MockDiffAnalyzerAgent_analyze_diff git_diff).change_type
      (MockDiffAnalyzerAgent_analyze_diff git_diff).scope)
    (MockDiffAnalyzerAgent_analyze_diff git_diff).scope

/-- Analysis record of the CrewAI pipeline (dict with keys change_type,
scope, confidence, files; the LLM fallback dicts carry no reasoning key). -/
structure CGAnalysis where
  change_type : String
  scope : String
  confidence : String
  files : List String
  deriving DecidableEq

/-- A parsed JSON object returned by a successful analysis kickoff of
DiffAnalysisAgent (the fields the pipeline reads afterwards). -/
structure AdvisoryAnalysis where
  change_type : String
  scope : String
  confidence : String
  deriving DecidableEq

/-- Outcomes of the three LLM calls of one CommitMessageGenerator.generate
invocation; none models the except path of the corresponding try block. -/
structure LLMOutcomes where
  analysis : Option AdvisoryAnalysis
  summary : Option String
  message : Option String

/-- Scan for the earliest split of the regex group pattern: the first
position (at least one character into the candidate old path) where the
text " b/" is followed by a non-empty new path, which the non-greedy match
of the pattern diff --git header regex selects. -/
def bSideAux : List Char → Option (List Char)
  | [] => none
  | c :: cs =>
    if leadMatch (" b/".toList) (c :: cs) ∧ ¬(cs.drop 2).isEmpty then some (cs.drop 2)
    else bSideAux cs

/-- Per-line match of DiffAnalysisAgent._extract_file_names
(src/commit_generator.py lines 176-184): the regex requires the literal
header lead-in followed by a non-empty old path, the separator, and a
non-empty new path reaching the end of the line; the second group (the b/
side) is returned unconditionally. -/
def matchDiffHeader (line : String) : Option String :=
  if leadMatch ("diff --git a/".toList) line.toList then
    match line.toList.drop 13 with
    | [] => none
    | _ :: rest => Option.map String.mk (bSideAux rest)
  else none

/-- DiffAnalysisAgent._extract_file_names (src/commit_generator.py lines
155-184). -/
def DiffAnalysisAgent_extract_file_names (git_diff : String) : List String :=
  catMap (fun l => (matchDiffHeader l).toList) (pySplitLines git_diff)

/-- DiffAnalysisAgent.analyze_diff (src/commit_generator.py lines 186-274):
a successful kickoff keeps the parsed JSON and attaches the file list; the
except path falls back to file-extension rules. -/
def DiffAnalysisAgent_analyze_diff (git_diff : String)
    (llm : Option AdvisoryAnalysis) : CGAnalysis :=
  match llm with
  | some a => ⟨a.change_type, a.scope, a.confidence, DiffAnalysisAgent_extract_file_names git_diff⟩
  | none =>
    if (DiffAnalysisAgent_extract_file_names git_diff).any fun f => strContains f "README.md" then
      ⟨"docs", "readme", "high", DiffAnalysisAgent_extract_file_names git_diff⟩
    else if (DiffAnalysisAgent_extract_file_names git_diff).any fun f => strContains f ".md" then
      ⟨"docs", "markdown", "high", DiffAnalysisAgent_extract_file_names git_diff⟩
    else if (DiffAnalysisAgent_extract_file_names git_diff).any fun f => strContains f ".py" then
      ⟨"feat", "code", "high", DiffAnalysisAgent_extract_file_names git_diff⟩
    else
      ⟨"chore", "maintenance", "low", DiffAnalysisAgent_extract_file_names git_diff⟩

/-- SummaryAgent.create_summary (src/commit_generator.py lines 323-372): a
successful kickoff is stripped and returned; the except path builds a
summary from the analysis. -/
def SummaryAgent_create_summary (_git_diff : String) (analysis : CGAnalysis)
    (llm : Option String) : String :=
  match llm with
  | some s => pyStrip s
  | none =>
    if analysis.change_type = "feat" then "Add new " ++ analysis.scope ++ " functionality"
    else if analysis.change_type = "fix" then "Fix " ++ analysis.scope ++ " issues"
    else if analysis.change_type = "docs" then "Update " ++ analysis.scope ++ " documentation"
    else "Update " ++ analysis.scope ++ " components"

/-- Default value of Config.MAX_COMMIT_LENGTH (src/config.py line 31); the
formatter validation (src/commit_generator.py line 466) uses this bound as
the literal 50. -/
def Config_MAX_COMMIT_LENGTH : Nat := 50

/-- Deterministic description table of CommitFormatterAgent used when a
kickoff result fails validation (src/commit_generator.py lines 472-511). -/
def commitFallbackDescription (change_type scope : String) : String :=
  if change_type = "feat" then
    if scope = "auth" then "add authentication features"
    else if scope = "api" then "add new API endpoints"
    else if scope = "ui" then "add new user interface"
    else if scope = "code" then "add new functionality"
    else "add new functionality"
  else if change_type = "fix" then
    if scope = "validation" then "fix validation issues"
    else if scope = "bug" then "fix critical bugs"
    else "fix issues and bugs"
  else if change_type = "docs" then
    if scope = "api" then "update API documentation"
    else if scope = "readme" then "update README"
    else if scope = "markdown" then "update markdown documentation"
    else "update documentation"
  else if change_type = "refactor" then "refactor code structure"
  else if change_type = "test" then "add or update tests"
  else if change_type = "style" then "improve code formatting"
  else if change_type = "build" then "update build configuration"
  else if change_type = "ci" then "update CI/CD pipeline"
  else "maintain codebase"

/-- Description table of the except path of CommitFormatterAgent
(src/commit_generator.py lines 517-535): per-category only. -/
def commitExceptDescription (change_type : String) : String :=
  if change_type = "feat" then "add new functionality"
  else if change_type = "fix" then "fix issues and bugs"
  else if change_type = "docs" then "update documentation"
  else if change_type = "refactor" then "refactor code structure"
  else if change_type = "test" then "add or update tests"
  else if change_type = "style" then "improve code formatting"
  else if change_type = "build" then "update build configuration"
  else if change_type = "ci" then "update CI/CD pipeline"
  else "maintain codebase"

/-- CommitFormatterAgent.format_commit_message (src/commit_generator.py
lines 422-537): a successful kickoff result is stripped and kept only when
it contains a colon and is at most 50 characters long; otherwise, and on
the except path, a deterministic message is rendered. -/
def CommitFormatterAgent_format_commit_message
    (change_type scope _summary : String) (llm : Option String) : String :=
  match llm with
  | some raw =>
    if strContainsChar (pyStrip raw) ':' = true ∧ (pyStrip raw).length ≤ 50 then pyStrip raw
    else change_type ++ simpleScopePart scope ++ ": " ++ commitFallbackDescription change_type scope
  | none =>
    change_type ++ simpleScopePart scope ++ ": " ++ commitExceptDescription change_type

/-- CommitMessageGenerator.generate (src/commit_generator.py lines 647-702)
on an explicitly supplied diff string. -/
def CommitMessageGenerator_generate (git_diff : String) (llm : LLMOutcomes) : String :=
  if pyStrip git_diff = "" then "No changes detected."
  else
    CommitFormatterAgent_format_commit_message
      (DiffAnalysisAgent_analyze_diff git_diff llm.analysis).change_type
      (DiffAnalysisAgent_analyze_diff git_diff llm.analysis).scope
      (SummaryAgent_create_summary git_diff
        (DiffAnalysisAgent_analyze_diff git_diff llm.analysis) llm.summary)
      llm.message

/-- FastCommitFormatter.format_commit_message (src/fast_commit_generator.py
lines 107-172): the LLM task is created but its result is never used; the
message is always the deterministic table entry. -/
def FastCommitFormatter_format_commit_message
    (change_type scope : String) (_files : List String) : String :=
  change_type ++ simpleScopePart scope ++ ": " ++
    (if change_type = "feat" then
      if scope = "auth" then "add authentication features"
      else if scope = "api" then "add new API endpoints"
      else if scope = "ui" then "add new user interface"
      else "add new functionality"
    else if change_type = "fix" then
      if scope = "validation" then "fix validation issues"
      else if scope = "bug" then "fix critical bugs"
      else "fix issues and bugs"
    else if change_type = "docs" then
      if scope = "api" then "update API documentation"
      else if scope = "readme" then "update README"
      else "update documentation"
    else if change_type = "refactor" then "refactor code structure"
    else if change_type = "test" then "add or update tests"
    else if change_type = "style" then "improve code formatting"
    else if change_type = "build" then "update build configuration"
    else if change_type = "ci" then "update CI/CD pipeline"
    else "maintain codebase")

/-- The nine conventional commit categories of the ChangeType enumeration
(src/commit_generator.py lines 36-69). -/
def conventionalTypes : List String :=
  ["feat", "fix", "docs", "style", "refactor", "test", "chore", "build", "ci"]

/-- A well-formed conventional commit message: a known category, an empty
or parenthesised scope segment, and a non-empty description after the
colon separator. -/
def IsConventionalMessage (m : String) : Prop :=
  ∃ ct sp desc, ct ∈ conventionalTypes ∧ desc ≠ "" ∧
    (sp = "" ∨ ∃ s, sp = "(" ++ s ++ ")") ∧ m = ct ++ sp ++ ": " ++ desc

/-- A string all of whose characters are whitespace strips to empty. -/
lemma pyStrip_eq_empty {d : String} (h : ∀ c ∈ d.toList, isPyWs c = true) :
    pyStrip d = "" := by
  unfold pyStrip
  have h1 : d.toList.dropWhile isPyWs = [] := by
    rw [List.dropWhile_eq_nil_iff]
    intro c hc; exact h c hc
  rw [h1]
  rfl

/-- Leading-segment matching is transitive. -/
lemma leadMatch_trans {p q l : List Char} (h1 : leadMatch p q = true)
    (h2 : leadMatch q l = true) : leadMatch p l = true := by
  induction p generalizing q l with
  | nil => simp [leadMatch]
  | cons a as ih =>
    cases q with
    | nil => simp [leadMatch] at h1
    | cons b bs =>
      cases l with
      | nil => simp [leadMatch] at h2
      | cons c cs =>
        by_cases hab : a = b
        · by_cases hbc : b = c
          · subst hab; subst hbc
            simp only [leadMatch, if_pos rfl] at h1 h2 ⊢
            exact ih h1 h2
          · simp [leadMatch, hbc] at h2
        · simp [leadMatch, hab] at h1

/-- Occurrence is preserved under extending the text on the left. -/
lemma occursIn_cons {p : List Char} {c : Char} {l : List Char}
    (h : occursIn p l = true) : occursIn p (c :: l) = true := by
  simp [occursIn, h]

/-- A leading match is in particular an occurrence. -/
lemma occursIn_of_leadMatch {p l : List Char} (h : leadMatch p l = true) :
    occursIn p l = true := by
  cases l with
  | nil => simpa [occursIn] using h
  | cons c cs => simp [occursIn, h]

/-- Splitting a leading match of a cons text. -/
lemma leadMatch_cons_elim {b : Char} {bs : List Char} {c : Char} {cs : List Char}
    (h : leadMatch (b :: bs) (c :: cs) = true) : b = c ∧ leadMatch bs cs = true := by
  by_cases hbc : b = c
  · exact ⟨hbc, by simpa [leadMatch, hbc] using h⟩
  · simp [leadMatch, hbc] at h

/-- A pattern occurring in the empty text is empty. -/
lemma eq_nil_of_occursIn_nil {p : List Char} (h : occursIn p [] = true) : p = [] := by
  cases p with
  | nil => rfl
  | cons a as => simp [occursIn, leadMatch] at h

/-- The empty pattern occurs everywhere. -/
lemma occursIn_nil_pat (l : List Char) : occursIn [] l = true := by
  cases l <;> simp [occursIn, leadMatch]

/-- An occurrence inside a leading match is an occurrence in the text. -/
lemma occursIn_leadMatch_trans {p q l : List Char} (h1 : occursIn p q = true)
    (h2 : leadMatch q l = true) : occursIn p l = true := by
  induction q generalizing l with
  | nil =>
    have hp := eq_nil_of_occursIn_nil h1
    subst hp; exact occursIn_nil_pat l
  | cons b bs ih =>
    cases l with
    | nil => simp [leadMatch] at h2
    | cons c cs =>
      obtain ⟨hbc, htail⟩ := leadMatch_cons_elim h2
      subst hbc
      rcases (by simpa [occursIn, Bool.or_eq_true] using h1 :
          leadMatch p (b :: bs) = true ∨ occursIn p bs = true) with h | h
      · exact occursIn_of_leadMatch (leadMatch_trans h h2)
      · exact occursIn_cons (ih h htail)

/-- Occurrence of contiguous segments is transitive. -/
lemma occursIn_trans {p q l : List Char} (h1 : occursIn p q = true)
    (h2 : occursIn q l = true) : occursIn p l = true := by
  induction l with
  | nil =>
    have hq := eq_nil_of_occursIn_nil h2
    subst hq; exact h1
  | cons c cs ih =>
    rcases (by simpa [occursIn, Bool.or_eq_true] using h2 :
        leadMatch q (c :: cs) = true ∨ occursIn q cs = true) with h | h
    · exact occursIn_leadMatch_trans h1 h
    · exact occursIn_cons (ih h)

/-- Substring containment is transitive. -/
lemma strContains_trans {s q p : String} (h1 : strContains q p = true)
    (h2 : strContains s q = true) : strContains s p = true :=
  occursIn_trans h1 h2

/-- Mapping a character function preserves leading matches. -/
lemma leadMatch_map {p l : List Char} (f : Char → Char) (h : leadMatch p l = true) :
    leadMatch (p.map f) (l.map f) = true := by
  induction p generalizing l with
  | nil => simp [leadMatch]
  | cons a as ih =>
    cases l with
    | nil => simp [leadMatch] at h
    | cons b bs =>
      obtain ⟨hab, htail⟩ := leadMatch_cons_elim h
      subst hab
      simp only [List.map_cons, leadMatch, if_pos rfl]
      exact ih htail

/-- Mapping a character function preserves occurrences. -/
lemma occursIn_map {p l : List Char} (f : Char → Char) (h : occursIn p l = true) :
    occursIn (p.map f) (l.map f) = true := by
  induction l with
  | nil =>
    have hp := eq_nil_of_occursIn_nil h
    subst hp; simp [occursIn, leadMatch]
  | cons c cs ih =>
    rcases (by simpa [occursIn, Bool.or_eq_true] using h :
        leadMatch p (c :: cs) = true ∨ occursIn p cs = true) with h | h
    · simpa using occursIn_of_leadMatch (leadMatch_map f h)
    · simpa using occursIn_cons (ih h)

/-- Substring containment survives Python lowercasing on both sides. -/
lemma strContains_lower {d p : String} (h : strContains d p = true) :
    strContains (pyLower d) (pyLower p) = true :=
  occursIn_map Char.toLower h

/-- A keyword occurring in the lowercasing of a token occurring in the diff
occurs in the lowercased diff. -/
lemma strContains_lower_keyword {d p q : String}
    (hpq : strContains (pyLower q) p = true) (h : strContains d q = true) :
    strContains (pyLower d) p = true :=
  strContains_trans hpq (strContains_lower h)

/-- Newline splitting never returns the empty list of pieces. -/
lemma splitOnNl_ne_nil (l : List Char) : splitOnNl l ≠ [] := by
  cases l with
  | nil => simp [splitOnNl]
  | cons c cs =>
    by_cases h : c = '\n'
    · simp [splitOnNl, h]
    · simp only [splitOnNl, if_neg h]
      cases hs : splitOnNl cs <;> simp

/-- Unfolding of newline splitting at a non-newline head. -/
lemma splitOnNl_cons_of_ne {c : Char} (h : ¬ c = '\n') (l : List Char) :
    splitOnNl (c :: l) =
      match splitOnNl l with
      | [] => [[c]]
      | x :: xs => (c :: x) :: xs := by
  simp [splitOnNl, h]

/-- Newline splitting distributes over concatenation at a newline. -/
lemma splitOnNl_append (l₁ l₂ : List Char) :
    splitOnNl (l₁ ++ '\n' :: l₂) = splitOnNl l₁ ++ splitOnNl l₂ := by
  induction l₁ with
  | nil => simp [splitOnNl]
  | cons c cs ih =>
    by_cases h : c = '\n'
    · subst h; simp [splitOnNl, ih]
    · cases hs : splitOnNl cs with
      | nil => exact absurd hs (splitOnNl_ne_nil cs)
      | cons x xs =>
        rw [List.cons_append, splitOnNl_cons_of_ne h, ih, hs,
          splitOnNl_cons_of_ne h, hs]
        rfl

/-- catMap distributes over list concatenation. -/
lemma catMap_append (f : α → List β) (l₁ l₂ : List α) :
    catMap f (l₁ ++ l₂) = catMap f l₁ ++ catMap f l₂ := by
  induction l₁ with
  | nil => simp [catMap]
  | cons a as ih => simp [catMap, ih]

/-- Line splitting of diff texts distributes over newline concatenation. -/
lemma pySplitLines_append (d₁ d₂ : String) :
    pySplitLines (d₁ ++ "\n" ++ d₂) = pySplitLines d₁ ++ pySplitLines d₂ := by
  unfold pySplitLines
  have hl : (d₁ ++ "\n" ++ d₂).toList = d₁.toList ++ '\n' :: d₂.toList := by
    show (d₁ ++ "\n" ++ d₂).data = d₁.data ++ '\n' :: d₂.data
    simp [String.data_append]
  rw [hl, splitOnNl_append, List.map_append]

/-- The simple analyzer returns exactly one of ten literal rule results. -/
lemma analyze_diff_cases (d : String) :
    SimpleDiffAnalyzer_analyze_diff d =
        ⟨"docs", "documentation", "high", "Documentation changes detected",
          SimpleDiffAnalyzer_extract_file_names d⟩ ∨
      SimpleDiffAnalyzer_analyze_diff d =
        ⟨"feat", "code", "high", "Code enhancements and new functionality detected",
          SimpleDiffAnalyzer_extract_file_names d⟩ ∨
      SimpleDiffAnalyzer_analyze_diff d =
        ⟨"feat", "auth", "high", "Authentication and security features detected",
          SimpleDiffAnalyzer_extract_file_names d⟩ ∨
      SimpleDiffAnalyzer_analyze_diff d =
        ⟨"fix", "validation", "high", "Bug fixes and validation improvements detected",
          SimpleDiffAnalyzer_extract_file_names d⟩ ∨
      SimpleDiffAnalyzer_analyze_diff d =
        ⟨"refactor", "code", "medium", "Code structure and encapsulation improvements detected",
          SimpleDiffAnalyzer_extract_file_names d⟩ ∨
      SimpleDiffAnalyzer_analyze_diff d =
        ⟨"test", "testing", "high", "Test code additions or modifications detected",
          SimpleDiffAnalyzer_extract_file_names d⟩ ∨
      SimpleDiffAnalyzer_analyze_diff d =
        ⟨"style", "formatting", "medium", "Code formatting and style changes detected",
          SimpleDiffAnalyzer_extract_file_names d⟩ ∨
      SimpleDiffAnalyzer_analyze_diff d =
        ⟨"build", "dependencies", "high", "Build system and dependency changes detected",
          SimpleDiffAnalyzer_extract_file_names d⟩ ∨
      SimpleDiffAnalyzer_analyze_diff d =
        ⟨"ci", "pipeline", "high", "CI/CD pipeline changes detected",
          SimpleDiffAnalyzer_extract_file_names d⟩ ∨
      SimpleDiffAnalyzer_analyze_diff d =
        ⟨"chore", "maintenance", "low", "General maintenance changes detected",
          SimpleDiffAnalyzer_extract_file_names d⟩ := by
  unfold SimpleDiffAnalyzer_analyze_diff
  by_cases h1 : condDocs d
  · simp [h1]
  · by_cases h2 : condCode d
    · simp [h1, h2]
    · by_cases h3 : condAuth d
      · simp [h1, h2, h3]
      · by_cases h4 : condFix d
        · simp [h1, h2, h3, h4]
        · by_cases h5 : condRefactor d
          · simp [h1, h2, h3, h4, h5]
          · by_cases h6 : condTest d
            · simp [h1, h2, h3, h4, h5, h6]
            · by_cases h7 : condStyle d
              · simp [h1, h2, h3, h4, h5, h6, h7]
              · by_cases h8 : condBuild d
                · simp [h1, h2, h3, h4, h5, h6, h7, h8]
                · by_cases h9 : condCI d
                  · simp [h1, h2, h3, h4, h5, h6, h7, h8, h9]
                  · simp [h1, h2, h3, h4, h5, h6, h7, h8, h9]

/-- The mock analyzer returns exactly one of four literal rule results. -/
lemma mock_analyze_cases (d : String) :
    MockDiffAnalyzerAgent_analyze_diff d =
        ⟨"fix", "validation", "high",
          "Code changes include bug fix patterns and validation improvements"⟩ ∨
      MockDiffAnalyzerAgent_analyze_diff d =
        ⟨"feat", "auth", "high",
          "New authentication features and logging functionality added"⟩ ∨
      MockDiffAnalyzerAgent_analyze_diff d =
        ⟨"refactor", "database", "medium",
          "Code structure improvements and encapsulation changes"⟩ ∨
      MockDiffAnalyzerAgent_analyze_diff d =
        ⟨"chore", "none", "low", "General maintenance changes detected"⟩ := by
  unfold MockDiffAnalyzerAgent_analyze_diff
  by_cases h1 : strContains d "def " = true ∧ strContains d "+" = true
  · by_cases h2 : (strContains (pyLower d) "fix" || strContains (pyLower d) "bug"
        || strContains (pyLower d) "pattern") = true
    · simp [h1, h2]
    · by_cases h3 : (strContains (pyLower d) "log" || strContains (pyLower d) "auth") = true
      · simp [h1, h2, h3]
      · simp [h1, h2, h3]
  · simp [h1]

/-- Reduction of the simple pipeline on a diff with non-whitespace content. -/
lemma generate_of_nonempty {d : String} (h : ¬ pyStrip d = "") :
    SimpleCommitMessageGenerator_generate_commit_message d =
      SimpleCommitFormatter_format_commit_message
        (SimpleDiffAnalyzer_analyze_diff d).change_type
        (SimpleSummaryAgent_create_summary d
          (SimpleDiffAnalyzer_analyze_diff d).change_type
          (SimpleDiffAnalyzer_analyze_diff d).scope
          (SimpleDiffAnalyzer_analyze_diff d).files)
        (SimpleDiffAnalyzer_analyze_diff d).scope := by
  simp [SimpleCommitMessageGenerator_generate_commit_message, h]

/-- A well-formed conventional commit message is non-empty. -/
lemma conventional_ne_empty {m : String} (h : IsConventionalMessage m) : m ≠ "" := by
  rcases h with ⟨ct, sp, desc, _, _, _, hm⟩
  intro he
  rw [he] at hm
  have hlen := congrArg String.length hm
  have hsep : (": ").length = 2 := rfl
  simp [String.length_append, hsep] at hlen
  omega

/-- C1: for the empty diff text and for every whitespace-only diff text,
CommitMessageGenerator.generate short-circuits before any agent runs and
returns exactly the sentinel string, whatever the advisory outcomes; hence
any two such invocations return equal results. -/
theorem C1_empty_input_sentinel (llm : LLMOutcomes) (d : String)
    (h : ∀ c ∈ d.toList, isPyWs c = true) :
    CommitMessageGenerator_generate d llm = "No changes detected." := by
  have hs : pyStrip d = "" := pyStrip_eq_empty h
  simp [CommitMessageGenerator_generate, hs]

/-- C1 witness: the two invocations of the empty-input law both evaluate to
the sentinel and are therefore equal. -/
theorem C1_empty_input_sentinel_witness :
    CommitMessageGenerator_generate "" ⟨none, none, none⟩ = "No changes detected." ∧
    CommitMessageGenerator_generate "   \n\t " ⟨none, none, none⟩ = "No changes detected." ∧
    CommitMessageGenerator_generate "" ⟨none, none, none⟩ =
      CommitMessageGenerator_generate "   \n\t " ⟨none, none, none⟩ := by
  refine ⟨C1_empty_input_sentinel _ _ (by decide), C1_empty_input_sentinel _ _ (by decide), ?_⟩
  rw [C1_empty_input_sentinel ⟨none, none, none⟩ "" (by decide),
    C1_empty_input_sentinel ⟨none, none, none⟩ "   \n\t " (by decide)]

/-- C2 counterexample: the diff text consisting of the three tokens def
login, session and log_failed_attempt contains all three tokens, yet
SimpleDiffAnalyzer classifies it feat with scope code (rule 2 fires before
the authentication rule), and the demo mock classifier returns chore with
scope none (the diff has no plus character). -/
theorem C2_counterexample :
    strContains "def login session log_failed_attempt" "def login" = true ∧
    strContains "def login session log_failed_attempt" "session" = true ∧
    strContains "def login session log_failed_attempt" "log_failed_attempt" = true ∧
    (SimpleDiffAnalyzer_analyze_diff "def login session log_failed_attempt").change_type
      = "feat" ∧
    (SimpleDiffAnalyzer_analyze_diff "def login session log_failed_attempt").scope = "code" ∧
    (MockDiffAnalyzerAgent_analyze_diff "def login session log_failed_attempt").change_type
      = "chore" ∧
    (MockDiffAnalyzerAgent_analyze_diff "def login session log_failed_attempt").scope
      = "none" := by
  refine ⟨by decide, by decide, by decide, by decide, by decide, by decide, by decide⟩

/-- C2 (amended): a diff containing the token def login is classified feat
by SimpleDiffAnalyzer with scope code, not auth, whenever the documentation
rule does not fire; the feat and auth classification for such a diff is
produced by the demo mock classifier, and only when the diff also contains
a plus character and none of the fix, bug, pattern keywords. -/
theorem C2_amended :
    (∀ d : String, strContains d "def login" = true → condDocs d = false →
      (SimpleDiffAnalyzer_analyze_diff d).change_type = "feat" ∧
      (SimpleDiffAnalyzer_analyze_diff d).scope = "code") ∧
    (∀ d : String, strContains d "def login" = true → strContains d "+" = true →
      strContains (pyLower d) "fix" = false → strContains (pyLower d) "bug" = false →
      strContains (pyLower d) "pattern" = false →
      (MockDiffAnalyzerAgent_analyze_diff d).change_type = "feat" ∧
      (MockDiffAnalyzerAgent_analyze_diff d).scope = "auth") := by
  constructor
  · intro d h hdocs
    have hdef : strContains (pyLower d) "def " = true :=
      strContains_lower_keyword (by decide) h
    have hc : condCode d = true := by unfold condCode; simp [hdef]
    constructor <;> simp [SimpleDiffAnalyzer_analyze_diff, hdocs, hc]
  · intro d h hplus hfix hbug hpat
    have hdef : strContains d "def " = true :=
      strContains_trans (by decide) h
    have hlog : strContains (pyLower d) "log" = true :=
      strContains_lower_keyword (by decide) h
    constructor <;>
      simp [MockDiffAnalyzerAgent_analyze_diff, hdef, hplus, hfix, hbug, hpat, hlog]

/-- C2 witness: a diff containing a plus character and the three tokens,
where the simple analyzer yields scope code and the mock analyzer yields
scope auth. -/
theorem C2_amended_witness :
    (SimpleDiffAnalyzer_analyze_diff "+ def login session log_failed_attempt").scope
      = "code" ∧
    (MockDiffAnalyzerAgent_analyze_diff "+ def login session log_failed_attempt").scope
      = "auth" :=
  ⟨(C2_amended.1 "+ def login session log_failed_attempt" (by decide) (by decide)).2,
    (C2_amended.2 "+ def login session log_failed_attempt" (by decide) (by decide)
      (by decide) (by decide) (by decide)).2⟩

/-- C3 counterexample: a single header whose new path is not the sentinel
contributes both the old and the new path in the simple parser, and the
regex parser keeps duplicate paths across headers, so the output is neither
one path per header nor duplicate-free. -/
theorem C3_counterexample :
    SimpleDiffAnalyzer_extract_file_names "diff --git a/old.py b/new.py"
      = ["old.py", "new.py"] ∧
    DiffAnalysisAgent_extract_file_names
        "diff --git a/app.py b/app.py\ndiff --git a/app.py b/app.py"
      = ["app.py", "app.py"] ∧
    ¬ (["app.py", "app.py"] : List String).Nodup := by
  refine ⟨by decide, by decide, by decide⟩

/-- C3 (amended): both parsers scan line by line and concatenate the
per-header contributions in first-occurrence order without removing
duplicates; the simple parser contributes the final path components of
both sides of each header (its sentinel comparison tests the last path
component against the full string /dev/null and therefore never excludes
anything), and the regex parser contributes the b-side path of each
matching header unconditionally, the no-file sentinel included. -/
theorem C3_amended :
    (∀ d₁ d₂ : String,
      SimpleDiffAnalyzer_extract_file_names (d₁ ++ "\n" ++ d₂) =
        SimpleDiffAnalyzer_extract_file_names d₁ ++ SimpleDiffAnalyzer_extract_file_names d₂) ∧
    (∀ d₁ d₂ : String,
      DiffAnalysisAgent_extract_file_names (d₁ ++ "\n" ++ d₂) =
        DiffAnalysisAgent_extract_file_names d₁ ++ DiffAnalysisAgent_extract_file_names d₂) ∧
    matchDiffHeader "diff --git a/x.py b//dev/null" = some "/dev/null" ∧
    DiffAnalysisAgent_extract_file_names "diff --git a/x.py b//dev/null" = ["/dev/null"] ∧
    SimpleDiffAnalyzer_extract_file_names "diff --git a/dir/sub/x.py b/dir/sub/x.py"
      = ["x.py"] := by
  refine ⟨?_, ?_, by decide, by decide, by decide⟩
  · intro d₁ d₂
    unfold SimpleDiffAnalyzer_extract_file_names
    rw [pySplitLines_append, catMap_append]
  · intro d₁ d₂
    unfold DiffAnalysisAgent_extract_file_names
    rw [pySplitLines_append, catMap_append]

/-- C4 counterexample: SimpleCommitFormatter suppresses only the
maintenance sentinel, so the no-scope sentinel none — exactly the scope the
demo classifier produces for unmatched diffs — is rendered with a
parenthesis group; symmetrically the demo formatter parenthesises
maintenance. -/
theorem C4_counterexample :
    SimpleCommitFormatter_format_commit_message "chore"
        "Update codebase with maintenance improvements" "none"
      = "chore(none): maintain codebase" ∧
    strContainsChar "chore(none): maintain codebase" '(' = true ∧
    MockCommitFormatterAgent_format_commit_message "chore"
        "Update codebase with maintenance improvements" "maintenance"
      = "chore(maintenance): update codebase with maintenance improvements" ∧
    strContainsChar "chore(maintenance): update codebase with maintenance improvements" '('
      = true := by
  refine ⟨by decide, by decide, by decide, by decide⟩

/-- C4 (amended): each formatter suppresses parentheses exactly for its own
sentinel (empty or maintenance for the simple and CrewAI formatters, empty
or none for the demo formatter); within each pipeline a classification
carrying that pipeline's sentinel scope is never rendered with a
parenthesis group, but a sentinel of the other pipeline is parenthesised. -/
theorem C4_sentinel_scope_suppression :
    (∀ d : String, (SimpleDiffAnalyzer_analyze_diff d).scope = "maintenance" →
      strContainsChar (SimpleCommitMessageGenerator_generate_commit_message d) '(' = false) ∧
    (∀ d : String, (MockDiffAnalyzerAgent_analyze_diff d).scope = "none" →
      strContainsChar (DemoCommitMessageGenerator_generate_commit_message d) '(' = false) ∧
    (∀ scope : String, scope = "" ∨ scope = "maintenance" → simpleScopePart scope = "") := by
  refine ⟨?_, ?_, ?_⟩
  · intro d h
    rcases analyze_diff_cases d with hc|hc|hc|hc|hc|hc|hc|hc|hc|hc
    · rw [hc] at h; simp at h
    · rw [hc] at h; simp at h
    · rw [hc] at h; simp at h
    · rw [hc] at h; simp at h
    · rw [hc] at h; simp at h
    · rw [hc] at h; simp at h
    · rw [hc] at h; simp at h
    · rw [hc] at h; simp at h
    · rw [hc] at h; simp at h
    · by_cases hemp : pyStrip d = ""
      · have hg : SimpleCommitMessageGenerator_generate_commit_message d =
            "No changes detected or git diff is empty." := by
          simp [SimpleCommitMessageGenerator_generate_commit_message, hemp]
        rw [hg]; decide
      · rw [generate_of_nonempty hemp, hc]; rfl
  · intro d h
    rcases mock_analyze_cases d with hc|hc|hc|hc
    · rw [hc] at h; simp at h
    · rw [hc] at h; simp at h
    · rw [hc] at h; simp at h
    · unfold DemoCommitMessageGenerator_generate_commit_message
      rw [hc]; rfl
  · intro scope h
    rcases h with h | h <;> subst h <;> decide

/-- C4 witness: a keyword-free diff reaches the maintenance scope of the
simple pipeline and the none scope of the demo pipeline, and neither
message contains a parenthesis. -/
theorem C4_sentinel_scope_suppression_witness :
    strContainsChar (SimpleCommitMessageGenerator_generate_commit_message "zzz") '(' = false ∧
    strContainsChar (DemoCommitMessageGenerator_generate_commit_message "hello") '(' = false :=
  ⟨C4_sentinel_scope_suppression.1 "zzz" (by decide),
    C4_sentinel_scope_suppression.2.1 "hello" (by decide)⟩

/-- C5: a candidate message from the advisory formatter call is kept
exactly when, after stripping, it contains a colon separator and is at most
the configured bound of 50 characters long; otherwise the deterministic
lookup-table description for the category and scope is rendered instead. -/
theorem C5_advisory_validation_gate :
    (∀ ct sc summ raw : String,
      strContainsChar (pyStrip raw) ':' = true →
      (pyStrip raw).length ≤ Config_MAX_COMMIT_LENGTH →
      CommitFormatterAgent_format_commit_message ct sc summ (some raw) = pyStrip raw) ∧
    (∀ ct sc summ raw : String,
      ¬(strContainsChar (pyStrip raw) ':' = true ∧
        (pyStrip raw).length ≤ Config_MAX_COMMIT_LENGTH) →
      CommitFormatterAgent_format_commit_message ct sc summ (some raw) =
        ct ++ simpleScopePart sc ++ ": " ++ commitFallbackDescription ct sc) := by
  constructor
  · intro ct sc summ raw h1 h2
    simp only [CommitFormatterAgent_format_commit_message]
    rw [if_pos ⟨h1, h2⟩]
  · intro ct sc summ raw h
    unfold Config_MAX_COMMIT_LENGTH at h
    simp only [CommitFormatterAgent_format_commit_message]
    rw [if_neg h]

/-- C5 witness: a short candidate with a separator is kept verbatim after
stripping; a candidate without a separator is replaced by the lookup-table
message. -/
theorem C5_advisory_validation_gate_witness :
    CommitFormatterAgent_format_commit_message "feat" "auth" "s"
        (some " feat(auth): add login ") = "feat(auth): add login" ∧
    CommitFormatterAgent_format_commit_message "feat" "auth" "s"
        (some "no separator here") = "feat(auth): add authentication features" := by
  constructor
  · rw [C5_advisory_validation_gate.1 "feat" "auth" "s" " feat(auth): add login "
      (by decide) (by decide)]
    decide
  · rw [C5_advisory_validation_gate.2 "feat" "auth" "s" "no separator here" (by decide)]
    decide

/-- C6: for every diff text the simple classifier returns exactly one
result, whose category is a member of the closed nine-element ChangeType
set. -/
theorem C6_change_type_closed_set (d : String) :
    (SimpleDiffAnalyzer_analyze_diff d).change_type ∈ conventionalTypes := by
  rcases analyze_diff_cases d with h|h|h|h|h|h|h|h|h|h <;> rw [h] <;>
    simp [conventionalTypes]

/-- Every non-blank diff makes the simple pipeline render a well-formed
conventional message. -/
lemma generate_conventional {d : String} (hemp : ¬ pyStrip d = "") :
    IsConventionalMessage (SimpleCommitMessageGenerator_generate_commit_message d) := by
  rw [generate_of_nonempty hemp]
  rcases analyze_diff_cases d with h|h|h|h|h|h|h|h|h|h <;> rw [h]
  · exact ⟨"docs", "(documentation)", "update documentation", by decide, by decide,
      Or.inr ⟨"documentation", rfl⟩, rfl⟩
  · exact ⟨"feat", "(code)", "add new functionality", by decide, by decide,
      Or.inr ⟨"code", rfl⟩, rfl⟩
  · exact ⟨"feat", "(auth)", "add authentication features", by decide, by decide,
      Or.inr ⟨"auth", rfl⟩, rfl⟩
  · exact ⟨"fix", "(validation)", "fix validation issues", by decide, by decide,
      Or.inr ⟨"validation", rfl⟩, rfl⟩
  · exact ⟨"refactor", "(code)", "refactor code structure", by decide, by decide,
      Or.inr ⟨"code", rfl⟩, rfl⟩
  · exact ⟨"test", "(testing)", "add or update tests", by decide, by decide,
      Or.inr ⟨"testing", rfl⟩, rfl⟩
  · exact ⟨"style", "(formatting)", "improve code formatting", by decide, by decide,
      Or.inr ⟨"formatting", rfl⟩, rfl⟩
  · exact ⟨"build", "(dependencies)", "update build configuration", by decide, by decide,
      Or.inr ⟨"dependencies", rfl⟩, rfl⟩
  · exact ⟨"ci", "(pipeline)", "update CI/CD pipeline", by decide, by decide,
      Or.inr ⟨"pipeline", rfl⟩, rfl⟩
  · exact ⟨"chore", "", "maintain codebase", by decide, by decide,
      Or.inl rfl, rfl⟩

/-- C7: the simple pipeline is total — for every input string it returns a
non-empty string: the sentinel when the input strips to nothing, and a
well-formed conventional commit message otherwise. -/
theorem C7_total_pipeline_safety (d : String) :
    SimpleCommitMessageGenerator_generate_commit_message d ≠ "" ∧
    (pyStrip d = "" → SimpleCommitMessageGenerator_generate_commit_message d =
      "No changes detected or git diff is empty.") ∧
    (¬ pyStrip d = "" →
      IsConventionalMessage (SimpleCommitMessageGenerator_generate_commit_message d)) := by
  by_cases hemp : pyStrip d = ""
  · have hg : SimpleCommitMessageGenerator_generate_commit_message d =
        "No changes detected or git diff is empty." := by
      simp [SimpleCommitMessageGenerator_generate_commit_message, hemp]
    exact ⟨by rw [hg]; decide, fun _ => hg, fun hne => absurd hemp hne⟩
  · have hconv := generate_conventional hemp
    exact ⟨conventional_ne_empty hconv, fun he => absurd he hemp, fun _ => hconv⟩

/-- C7 witness: a concrete code diff yields a non-empty conventional
message, and a blank input yields the sentinel. -/
theorem C7_total_pipeline_safety_witness :
    SimpleCommitMessageGenerator_generate_commit_message "def foo" ≠ "" ∧
    IsConventionalMessage (SimpleCommitMessageGenerator_generate_commit_message "def foo") ∧
    SimpleCommitMessageGenerator_generate_commit_message " " =
      "No changes detected or git diff is empty." :=
  ⟨(C7_total_pipeline_safety "def foo").1,
    (C7_total_pipeline_safety "def foo").2.2 (by decide),
    (C7_total_pipeline_safety " ").2.1 (by decide)⟩

/-- C8: the deterministic formatters ignore the summary phrase entirely —
SimpleCommitFormatter yields the same message for any two summaries, the
fast formatter (which takes files instead of a summary) yields exactly the
same message as the simple one, and an unrecognised category falls back to
the description maintain codebase. -/
theorem C8_formatter_summary_independent :
    (∀ ct sc s₁ s₂ : String,
      SimpleCommitFormatter_format_commit_message ct s₁ sc =
        SimpleCommitFormatter_format_commit_message ct s₂ sc) ∧
    (∀ ct sc s : String, ∀ fs : List String,
      FastCommitFormatter_format_commit_message ct sc fs =
        SimpleCommitFormatter_format_commit_message ct s sc) ∧
    (∀ ct sc s : String, ct ∉ conventionalTypes →
      SimpleCommitFormatter_format_commit_message ct s sc =
        ct ++ simpleScopePart sc ++ ": " ++ "maintain codebase") := by
  refine ⟨fun ct sc s₁ s₂ => rfl, fun ct sc s fs => rfl, ?_⟩
  intro ct sc s h
  simp only [conventionalTypes, List.mem_cons, List.not_mem_nil, or_false, not_or] at h
  obtain ⟨h1, h2, h3, h4, h5, h6, h7, h8, h9⟩ := h
  unfold SimpleCommitFormatter_format_commit_message
  simp [h1, h2, h3, h4, h5, h6, h8, h9]

/-- C8 witness: an unrecognised category is rendered with the fallback
description, independently of the summary. -/
theorem C8_formatter_summary_independent_witness :
    SimpleCommitFormatter_format_commit_message "wip" "anything" "x"
      = "wip(x): maintain codebase" := by
  rw [C8_formatter_summary_independent.2.2 "wip" "x" "anything" (by decide)]
  decide

/-- C9 counterexample: on a diff touching only README.md with an added
markdown line, the simple pipeline classifies docs with scope
documentation — not readme or markdown — and renders a message equal to
neither of the two claimed shapes. -/
theorem C9_counterexample :
    SimpleCommitMessageGenerator_generate_commit_message
        "diff --git a/README.md b/README.md\n+# Usage"
      = "docs(documentation): update documentation" ∧
    (SimpleDiffAnalyzer_analyze_diff
        "diff --git a/README.md b/README.md\n+# Usage").scope = "documentation" ∧
    ("docs(documentation): update documentation" ≠ "docs(readme): update README") ∧
    ("docs(documentation): update documentation"
      ≠ "docs(markdown): update markdown documentation") := by
  refine ⟨by decide, by decide, by decide, by decide⟩

/-- C9 (amended): a diff whose extracted file list is exactly README.md is
classified docs with scope documentation by the simple pipeline and
rendered docs(documentation): update documentation; the scopes readme and
markdown together with the messages docs(readme): update README and
docs(markdown): update markdown documentation belong to the CrewAI
pipeline, whose fallback analyzer maps a README.md file list to docs with
scope readme and whose formatter renders those messages when the advisory
candidate fails validation. -/
theorem C9_readme_docs_scope :
    (∀ d : String, SimpleDiffAnalyzer_extract_file_names d = ["README.md"] →
      ¬ pyStrip d = "" →
      SimpleCommitMessageGenerator_generate_commit_message d =
        "docs(documentation): update documentation") ∧
    (∀ d : String, DiffAnalysisAgent_extract_file_names d = ["README.md"] →
      DiffAnalysisAgent_analyze_diff d none = ⟨"docs", "readme", "high", ["README.md"]⟩) ∧
    (∀ summ raw : String, strContainsChar (pyStrip raw) ':' = false →
      CommitFormatterAgent_format_commit_message "docs" "readme" summ (some raw)
        = "docs(readme): update README" ∧
      CommitFormatterAgent_format_commit_message "docs" "markdown" summ (some raw)
        = "docs(markdown): update markdown documentation") := by
  refine ⟨?_, ?_, ?_⟩
  · intro d hf hne
    have hdocs : condDocs d = true := by
      unfold condDocs
      rw [hf]
      simp [show strContains "README.md" ".md" = true from by decide,
        show strContains "README.md" ".py" = false from by decide]
    rw [generate_of_nonempty hne]
    simp only [SimpleDiffAnalyzer_analyze_diff, hdocs, if_pos]
    rfl
  · intro d hf
    unfold DiffAnalysisAgent_analyze_diff
    rw [hf]
    simp [show strContains "README.md" "README.md" = true from by decide]
  · intro summ raw h
    have hneg : ¬(strContainsChar (pyStrip raw) ':' = true ∧ (pyStrip raw).length ≤ 50) := by
      intro hc
      rw [hc.1] at h
      simp at h
    constructor <;>
      · simp only [CommitFormatterAgent_format_commit_message]
        rw [if_neg hneg]
        decide

/-- C9 witness: concrete instances of all three parts. -/
theorem C9_readme_docs_scope_witness :
    SimpleCommitMessageGenerator_generate_commit_message
        "diff --git a/README.md b/README.md"
      = "docs(documentation): update documentation" ∧
    DiffAnalysisAgent_analyze_diff "diff --git a/README.md b/README.md" none
      = ⟨"docs", "readme", "high", ["README.md"]⟩ ∧
    CommitFormatterAgent_format_commit_message "docs" "readme" "s" (some "invalid")
      = "docs(readme): update README" :=
  ⟨C9_readme_docs_scope.1 "diff --git a/README.md b/README.md" (by decide) (by decide),
    C9_readme_docs_scope.2.1 "diff --git a/README.md b/README.md" (by decide),
    (C9_readme_docs_scope.2.2 "s" "invalid" (by decide)).1⟩

/-- C10: whenever the documentation, code, authentication and fix rules all
fail, a lowercased diff containing an underscore is classified refactor;
consequently the test, style, build and ci categories are reachable only
when the first five rule conditions are all false, in particular only when
the lowercased diff contains no underscore. -/
theorem C10_underscore_refactor_gate :
    (∀ d : String, condDocs d = false → condCode d = false → condAuth d = false →
      condFix d = false → strContains (pyLower d) "_" = true →
      (SimpleDiffAnalyzer_analyze_diff d).change_type = "refactor") ∧
    (∀ d : String, (SimpleDiffAnalyzer_analyze_diff d).change_type ∈
        (["test", "style", "build", "ci"] : List String) →
      condDocs d = false ∧ condCode d = false ∧ condAuth d = false ∧
        condFix d = false ∧ condRefactor d = false ∧
        strContains (pyLower d) "_" = false) := by
  constructor
  · intro d h1 h2 h3 h4 hu
    have h5 : condRefactor d = true := by unfold condRefactor; simp [hu]
    simp [SimpleDiffAnalyzer_analyze_diff, h1, h2, h3, h4, h5]
  · intro d h
    by_cases h1 : condDocs d
    · simp [SimpleDiffAnalyzer_analyze_diff, h1] at h
    · by_cases h2 : condCode d
      · simp [SimpleDiffAnalyzer_analyze_diff, h1, h2] at h
      · by_cases h3 : condAuth d
        · simp [SimpleDiffAnalyzer_analyze_diff, h1, h2, h3] at h
        · by_cases h4 : condFix d
          · simp [SimpleDiffAnalyzer_analyze_diff, h1, h2, h3, h4] at h
          · by_cases h5 : condRefactor d
            · simp [SimpleDiffAnalyzer_analyze_diff, h1, h2, h3, h4, h5] at h
            · have h5f : condRefactor d = false := by
                exact Bool.not_eq_true _ ▸ eq_false_of_ne_true h5
              have hu : strContains (pyLower d) "_" = false := by
                unfold condRefactor at h5f
                rcases Bool.or_eq_false_iff.mp
                  (Bool.or_eq_false_iff.mp
                    (Bool.or_eq_false_iff.mp
                      (Bool.or_eq_false_iff.mp h5f).1).1).1 with ⟨hx, _⟩
                exact hx
              exact ⟨eq_false_of_ne_true h1, eq_false_of_ne_true h2,
                eq_false_of_ne_true h3, eq_false_of_ne_true h4, h5f, hu⟩

/-- C10 witness: a keyword-free diff containing an underscore is classified
refactor. -/
theorem C10_underscore_refactor_gate_witness :
    (SimpleDiffAnalyzer_analyze_diff "xyz_qqq").change_type = "refactor" :=
  C10_underscore_refactor_gate.1 "xyz_qqq" (by decide) (by decide) (by decide)
    (by decide) (by decide)
